import Mathlib

/-!
Shallow embedding of `src/agent.py` (the resume-interview agent).

The file models the two pieces of repository logic the claims are about:

* the Fit-Evaluation Tool `evaluate_fit` (agent.py lines 64-83), including the
  module-level ChromaDB setup (lines 32-37): the collection is modelled as an
  optional query function `Option Collection`; `none` models the startup path
  where `collection` was never bound (connecting to the store raised, the
  `except` logged, and any later reference raises `NameError`, which the
  tool-level `except Exception` catches);

* the data-channel intake handler `handle_data` (agent.py lines 106-135):
  the UTF-8 decode of the packet bytes and the stdlib `json.loads` are external
  dependencies, modelled respectively by an `Option String` input (`none` =
  `UnicodeDecodeError`, caught by the outer `except Exception`) and by a
  parse function `jl : String → Option JsonValue` (`none` = `JSONDecodeError`,
  caught by the inner `except json.JSONDecodeError`).  Python values parsed
  from JSON are modelled by the inductive `JsonValue` (numbers as integers;
  no claim depends on float formatting).  The handler's observable behaviour
  is a `HandlerOutcome`: which guard fired, whether `session.generate_reply`
  was invoked and with which synthetic utterance, or whether the outer
  `except` swallowed an exception.

Also modelled: `ResumeAgent.on_enter` (lines 60-62) as the list of
`session.say` utterances it performs.
-/

set_option maxRecDepth 8192

namespace ResumeAgentSpec

/-! ### JSON values (result of `json.loads`) -/

/-- A Python value produced by `json.loads`: `None`, `bool`, number, `str`,
`list`, or `dict` (field list, later duplicate keys win as in CPython). -/
inductive JsonValue where
  | null : JsonValue
  | bool : Bool → JsonValue
  | num : Int → JsonValue
  | str : String → JsonValue
  | arr : List JsonValue → JsonValue
  | obj : List (String × JsonValue) → JsonValue

/-- `dict.get key`: the value of the last binding of `key`, if any
(CPython keeps the last duplicate key when decoding JSON). -/
def jsonGet (fields : List (String × JsonValue)) (key : String) : Option JsonValue :=
  List.lookup key fields.reverse

/-- Python truthiness of a decoded JSON value, as used by
`if message_type == "job_description" and content:`. -/
def truthy : JsonValue → Bool
  | JsonValue.null => false
  | JsonValue.bool b => b
  | JsonValue.num n => decide (n ≠ 0)
  | JsonValue.str s => decide (s ≠ "")
  | JsonValue.arr xs => !xs.isEmpty
  | JsonValue.obj fs => !fs.isEmpty

/-- A one-character string holding a single quote (kept out of string
literals on purpose). -/
def squote : String := String.singleton (Char.ofNat 39)

mutual

/-- Python `repr` of a decoded JSON value, used by `str` on containers.
Faithful on the shapes the claims touch; string escaping inside containers
is approximated (no claim evaluates it). -/
def pyRepr : JsonValue → String
  | JsonValue.null => "None"
  | JsonValue.bool true => "True"
  | JsonValue.bool false => "False"
  | JsonValue.num n => toString n
  | JsonValue.str s => squote ++ s ++ squote
  | JsonValue.arr xs => "[" ++ String.intercalate ", " (pyReprList xs) ++ "]"
  | JsonValue.obj fs => "\x7b" ++ String.intercalate ", " (pyReprFields fs) ++ "\x7d"

/-- `pyRepr` mapped over the elements of a list value. -/
def pyReprList : List JsonValue → List String
  | [] => []
  | v :: vs => pyRepr v :: pyReprList vs

/-- `pyRepr` of the `key: value` entries of a dict value. -/
def pyReprFields : List (String × JsonValue) → List String
  | [] => []
  | (k, v) :: fs => (squote ++ k ++ squote ++ ": " ++ pyRepr v) :: pyReprFields fs

end

/-- Python `str` of a decoded JSON value, as interpolated by the f-string
building the synthetic utterance: a `str` is inserted verbatim, anything
else through its `repr`/`str` form. -/
def pyStr : JsonValue → String
  | JsonValue.str s => s
  | v => pyRepr v

/-- `str` of `data_json.get "content"`; `none` is Python `None`. -/
def pyStrOpt : Option JsonValue → String
  | some v => pyStr v
  | none => "None"

/-! ### Participants and data packets -/

/-- The participant kinds of the transport layer; the handler only compares
against the agent kind (`rtc.ParticipantKind.PARTICIPANT_KIND_AGENT`). -/
inductive ParticipantKind where
  | standard : ParticipantKind
  | ingress : ParticipantKind
  | egress : ParticipantKind
  | sip : ParticipantKind
  | agent : ParticipantKind
deriving DecidableEq

/-- The sender metadata carried by a data packet (only `kind` is read). -/
structure Participant where
  kind : ParticipantKind
deriving DecidableEq

/-- `dp.participant and dp.participant.kind == PARTICIPANT_KIND_AGENT`:
true only when sender metadata is present and of the agent kind. -/
def isAgentSender : Option Participant → Bool
  | none => false
  | some p => decide (p.kind = ParticipantKind.agent)

/-! ### The intake handler `handle_data` -/

/-- Observable outcome of one `handle_data` invocation. -/
inductive HandlerOutcome where
  /-- the self-origin guard returned early -/
  | droppedAgent : HandlerOutcome
  /-- `session.generate_reply` was called once with this synthetic utterance -/
  | forwarded : String → HandlerOutcome
  /-- the `if` condition was false: the message was silently dropped -/
  | noForward : HandlerOutcome
  /-- an exception reached the outer `except Exception`, was logged, and
  swallowed -/
  | swallowedError : HandlerOutcome
deriving DecidableEq

/-- The inner `try/except json.JSONDecodeError` block: on parse failure the
raw fallback sets `message_type = "raw"` and `content = decoded_str`; on a
parsed object, `message_type`/`content` come from `dict.get`; on any other
parsed value `.get` raises `AttributeError` (not a `JSONDecodeError`), which
escapes this block — modelled as `none`. -/
def parseTypedContent (jl : String → Option JsonValue) (decoded_str : String) :
    Option (Option JsonValue × Option JsonValue) :=
  match jl decoded_str with
  | none => some (some (JsonValue.str "raw"), some (JsonValue.str decoded_str))
  | some (JsonValue.obj fields) =>
      some (jsonGet fields "type", jsonGet fields "content")
  | some _ => none

/-- `message_type == "job_description"` in Python: equality holds only for
that exact string value. -/
def isJdType : Option JsonValue → Bool
  | some (JsonValue.str s) => decide (s = "job_description")
  | _ => false

/-- Python truthiness of the optional `content` (`None` is falsy). -/
def truthyOpt : Option JsonValue → Bool
  | none => false
  | some v => truthy v

/-- The forwarding condition `message_type == "job_description" and content`. -/
def jdCondition (mt c : Option JsonValue) : Bool :=
  isJdType mt && truthyOpt c

/-- The synthetic user utterance forwarded through `session.generate_reply`. -/
def jdUtterance (c : Option JsonValue) : String :=
  "Here is the Job Description I need you to evaluate: " ++ pyStrOpt c ++ ". Am I a fit?"

/-- `handle_data` (agent.py lines 106-135).  Inputs: the `json.loads`
dependency `jl`, the packet's sender metadata, and the result of decoding
`dp.data` as UTF-8 (`none` = `UnicodeDecodeError`). -/
def handle_data (jl : String → Option JsonValue)
    (sender : Option Participant) (decoded : Option String) : HandlerOutcome :=
  if isAgentSender sender then HandlerOutcome.droppedAgent
  else
    match decoded with
    | none => HandlerOutcome.swallowedError
    | some decoded_str =>
      match parseTypedContent jl decoded_str with
      | none => HandlerOutcome.swallowedError
      | some (message_type, content) =>
        if jdCondition message_type content then
          HandlerOutcome.forwarded (jdUtterance content)
        else HandlerOutcome.noForward

/-! ### The Fit-Evaluation Tool `evaluate_fit` -/

/-- The slice of a ChromaDB query result the code reads:
`results['documents']`, a list (one entry per query text) of lists of
document fragments. -/
structure QueryResults where
  documents : List (List String)

/-- A connected collection: `query(query_texts=[jd], n_results=n)`, which
either returns results or raises (modelled as `Except.error ()`). -/
def Collection : Type := String → Nat → Except Unit QueryResults

/-- Evaluating `collection.query(...)` under the module-level setup: when
startup failed, `collection` was never bound, so the reference raises
(`NameError`), modelled as an error; otherwise the query function runs. -/
def collectionQuery : Option Collection → String → Nat → Except Unit QueryResults
  | none, _, _ => Except.error ()
  | some c, jd, n => c jd n

/-- The `retrieved_context` computed from a successful query:
`"\n---\n".join(results['documents'][0])` when `results['documents']` and
`results['documents'][0]` are both truthy, else the sentinel. -/
def retrieved_context (results : QueryResults) : String :=
  match results.documents with
  | [] => "No relevant experience found in resume."
  | d0 :: _ =>
    if d0 = [] then "No relevant experience found in resume."
    else String.intercalate "\n---\n" d0

/-- `evaluate_fit` (agent.py lines 64-83): query the collection with
`n_results=5`, compose the instruction block, and turn any exception into
the fixed error string. -/
def evaluate_fit (col : Option Collection) (job_description : String) : String :=
  match collectionQuery col job_description 5 with
  | Except.error _ => "Error: Could not retrieve resume data."
  | Except.ok results =>
    "RETRIEVED RESUME SECTIONS:\n" ++ retrieved_context results ++
      "\n\nINSTRUCTION: Compare the JD strictly against these sections."

/-! ### Agent entry -/

/-- The `session.say` utterances performed by `ResumeAgent.on_enter`
(agent.py lines 60-62), spoken on the session's transition into the
started state. -/
def on_enter : List String :=
  ["I am connected. Please paste the Job Description and click submit so I can evaluate my fit."]

/-! ### Helper lemmas on the intake handler -/

/-- The forwarding condition is true exactly for the string value
`"job_description"` together with a present, truthy content. -/
theorem jdCondition_eq_true_iff (mt c : Option JsonValue) :
    jdCondition mt c = true ↔
      (mt = some (JsonValue.str "job_description") ∧ ∃ v, c = some v ∧ truthy v = true) := by
  cases mt with
  | none => simp [jdCondition, isJdType]
  | some m =>
    cases m <;> cases c <;>
      simp [jdCondition, isJdType, truthyOpt]

/-- A non-agent sender passes the guard; the handler is then determined by
the parse of the decoded text. -/
theorem handle_data_some_eq (jl : String → Option JsonValue)
    (sender : Option Participant) (s : String)
    (hs : isAgentSender sender = false) :
    handle_data jl sender (some s) =
      (match parseTypedContent jl s with
      | none => HandlerOutcome.swallowedError
      | some (mt, c) =>
        if jdCondition mt c then HandlerOutcome.forwarded (jdUtterance c)
        else HandlerOutcome.noForward) := by
  simp [handle_data, hs]

/-- Parsing an object message yields its `type` and `content` fields. -/
theorem parseTypedContent_obj (jl : String → Option JsonValue) (s : String)
    (fs : List (String × JsonValue)) (h : jl s = some (JsonValue.obj fs)) :
    parseTypedContent jl s = some (jsonGet fs "type", jsonGet fs "content") := by
  simp [parseTypedContent, h]

/-- A failed JSON parse takes the raw fallback. -/
theorem parseTypedContent_raw (jl : String → Option JsonValue) (s : String)
    (h : jl s = none) :
    parseTypedContent jl s = some (some (JsonValue.str "raw"), some (JsonValue.str s)) := by
  simp [parseTypedContent, h]

/-- A well-formed job-description object message is forwarded with the
content string interpolated verbatim into the synthetic utterance. -/
theorem forwarded_of_jd_object (jl : String → Option JsonValue)
    (sender : Option Participant) (s X : String) (fs : List (String × JsonValue))
    (hs : isAgentSender sender = false)
    (hj : jl s = some (JsonValue.obj fs))
    (ht : jsonGet fs "type" = some (JsonValue.str "job_description"))
    (hc : jsonGet fs "content" = some (JsonValue.str X))
    (hX : X ≠ "") :
    handle_data jl sender (some s) =
      HandlerOutcome.forwarded
        ("Here is the Job Description I need you to evaluate: " ++ X ++ ". Am I a fit?") := by
  have htr : truthy (JsonValue.str X) = true := by
    simp only [truthy]
    exact decide_eq_true hX
  have hcond : jdCondition (some (JsonValue.str "job_description"))
      (some (JsonValue.str X)) = true := by
    simp [jdCondition, isJdType, truthyOpt, htr]
  rw [handle_data_some_eq jl sender s hs, parseTypedContent_obj jl s fs hj, ht, hc]
  simp [hcond, jdUtterance, pyStrOpt, pyStr]

/-! ### Substring search (for refuting verbatim-containment) -/

/-- Whether `pat` occurs contiguously inside `hay` (character lists). -/
def listContains (hay pat : List Char) : Bool :=
  (List.range (hay.length + 1)).any fun i => decide ((hay.drop i).take pat.length = pat)

/-- Any explicit decomposition witnesses containment. -/
theorem listContains_of_decomp (pre pat suf : List Char) :
    listContains (pre ++ (pat ++ suf)) pat = true := by
  refine List.any_eq_true.mpr ⟨pre.length, ?_, ?_⟩
  · simp [List.mem_range, List.length_append]
    omega
  · simp

/-! ### Concrete inputs used by the witnesses -/

/-- Fields of a well-formed job-description message. -/
def jdFields : List (String × JsonValue) :=
  [("type", JsonValue.str "job_description"),
   ("content", JsonValue.str "Senior Python developer")]

/-- A `json.loads` behaviour returning that object for any text. -/
def jdLoads : String → Option JsonValue := fun _ => some (JsonValue.obj jdFields)

/-- A `json.loads` behaviour that always fails (`JSONDecodeError`). -/
def rawLoads : String → Option JsonValue := fun _ => none

/-! ### Claim theorems: intake handler -/

/-- C1: a data message that decodes as UTF-8 and parses as a JSON object
with type `"job_description"` and a non-empty content string `X`, sent by a
participant that is not the agent itself, makes the intake handler call
`session.generate_reply` exactly once, with the synthetic utterance
`Here is the Job Description I need you to evaluate: X. Am I a fit?`,
which contains `X` verbatim. -/
theorem C1_jd_message_forwarded_verbatim (jl : String → Option JsonValue)
    (sender : Option Participant) (s X : String) (fs : List (String × JsonValue))
    (hs : isAgentSender sender = false)
    (hj : jl s = some (JsonValue.obj fs))
    (ht : jsonGet fs "type" = some (JsonValue.str "job_description"))
    (hc : jsonGet fs "content" = some (JsonValue.str X))
    (hX : X ≠ "") :
    handle_data jl sender (some s) =
      HandlerOutcome.forwarded
        ("Here is the Job Description I need you to evaluate: " ++ X ++ ". Am I a fit?") ∧
    ∃ pre suf,
      ("Here is the Job Description I need you to evaluate: " ++ X ++ ". Am I a fit?") =
        pre ++ X ++ suf :=
  ⟨forwarded_of_jd_object jl sender s X fs hs hj ht hc hX,
   "Here is the Job Description I need you to evaluate: ", ". Am I a fit?", rfl⟩

/-- Witness for C1 at a concrete message. -/
theorem C1_jd_message_forwarded_verbatim_witness :
    handle_data jdLoads none (some "payload") =
      HandlerOutcome.forwarded
        ("Here is the Job Description I need you to evaluate: " ++
          "Senior Python developer" ++ ". Am I a fit?") :=
  (C1_jd_message_forwarded_verbatim jdLoads none "payload" "Senior Python developer"
    jdFields rfl rfl rfl rfl (by decide)).1

/-- C5: a data message from a non-agent sender whose decoded text is not
valid JSON takes the raw fallback (`message_type = "raw"`,
`content = decoded_str`); the handler then silently drops the message
(`"raw"` never equals `"job_description"`), returning normally, so no
exception escapes and the listener stays registered. -/
theorem C5_raw_fallback_no_escape (jl : String → Option JsonValue)
    (sender : Option Participant) (s : String)
    (hs : isAgentSender sender = false)
    (hj : jl s = none) :
    parseTypedContent jl s =
      some (some (JsonValue.str "raw"), some (JsonValue.str s)) ∧
    handle_data jl sender (some s) = HandlerOutcome.noForward := by
  refine ⟨parseTypedContent_raw jl s hj, ?_⟩
  rw [handle_data_some_eq jl sender s hs, parseTypedContent_raw jl s hj]
  simp [jdCondition, isJdType]

/-- Witness for C5 at a concrete non-JSON message. -/
theorem C5_raw_fallback_no_escape_witness :
    parseTypedContent rawLoads "plain text job description" =
      some (some (JsonValue.str "raw"), some (JsonValue.str "plain text job description")) ∧
    handle_data rawLoads none (some "plain text job description") =
      HandlerOutcome.noForward :=
  C5_raw_fallback_no_escape rawLoads none "plain text job description" rfl rfl

/-- C6: a data message whose sender participant is of the agent kind is
dropped by the self-origin guard: the handler returns early and never
forwards a synthetic utterance. -/
theorem C6_agent_sender_never_forwarded (jl : String → Option JsonValue)
    (p : Participant) (decoded : Option String)
    (hp : p.kind = ParticipantKind.agent) :
    handle_data jl (some p) decoded = HandlerOutcome.droppedAgent ∧
    ∀ u, handle_data jl (some p) decoded ≠ HandlerOutcome.forwarded u := by
  have h : handle_data jl (some p) decoded = HandlerOutcome.droppedAgent := by
    simp [handle_data, isAgentSender, hp]
  exact ⟨h, fun u hu => by rw [h] at hu; cases hu⟩

/-- Witness for C6 at a concrete agent-sent message. -/
theorem C6_agent_sender_never_forwarded_witness :
    handle_data jdLoads (some ⟨ParticipantKind.agent⟩) (some "payload") =
      HandlerOutcome.droppedAgent :=
  (C6_agent_sender_never_forwarded jdLoads ⟨ParticipantKind.agent⟩ (some "payload") rfl).1

/-- C9: for a decoded data message from a non-agent sender, a synthetic
utterance is forwarded if and only if the text parses as a JSON object
whose `type` field is the string `"job_description"` and whose `content`
field is present and truthy (for Python, a non-empty value); moreover the
raw-fallback path and an object with a different type or empty/missing
content are silently dropped (`noForward`), with no error swallowed. -/
theorem C9_forwarding_characterization (jl : String → Option JsonValue)
    (sender : Option Participant) (s : String)
    (hs : isAgentSender sender = false) :
    ((∃ u, handle_data jl sender (some s) = HandlerOutcome.forwarded u) ↔
      (∃ fs v, jl s = some (JsonValue.obj fs) ∧
        jsonGet fs "type" = some (JsonValue.str "job_description") ∧
        jsonGet fs "content" = some v ∧ truthy v = true)) ∧
    (jl s = none → handle_data jl sender (some s) = HandlerOutcome.noForward) ∧
    (∀ fs, jl s = some (JsonValue.obj fs) →
      ¬(jsonGet fs "type" = some (JsonValue.str "job_description") ∧
        ∃ v, jsonGet fs "content" = some v ∧ truthy v = true) →
      handle_data jl sender (some s) = HandlerOutcome.noForward) := by
  have hraw : jl s = none → handle_data jl sender (some s) = HandlerOutcome.noForward := by
    intro hj
    rw [handle_data_some_eq jl sender s hs, parseTypedContent_raw jl s hj]
    simp [jdCondition, isJdType]
  have hobjneg : ∀ fs, jl s = some (JsonValue.obj fs) →
      ¬(jsonGet fs "type" = some (JsonValue.str "job_description") ∧
        ∃ v, jsonGet fs "content" = some v ∧ truthy v = true) →
      handle_data jl sender (some s) = HandlerOutcome.noForward := by
    intro fs hj hneg
    have hcond : jdCondition (jsonGet fs "type") (jsonGet fs "content") = false := by
      cases hb : jdCondition (jsonGet fs "type") (jsonGet fs "content") with
      | false => rfl
      | true => exact absurd ((jdCondition_eq_true_iff _ _).mp hb) hneg
    rw [handle_data_some_eq jl sender s hs, parseTypedContent_obj jl s fs hj]
    simp [hcond]
  refine ⟨⟨?_, ?_⟩, hraw, hobjneg⟩
  · rintro ⟨u, hu⟩
    rcases hj : jl s with _ | v
    · rw [hraw hj] at hu
      cases hu
    · cases v with
      | obj fs =>
        by_cases hcond : jsonGet fs "type" = some (JsonValue.str "job_description") ∧
            ∃ v, jsonGet fs "content" = some v ∧ truthy v = true
        · obtain ⟨hty, v, hc, hv⟩ := hcond
          exact ⟨fs, v, rfl, hty, hc, hv⟩
        · rw [hobjneg fs hj hcond] at hu
          cases hu
      | null => rw [handle_data_some_eq jl sender s hs] at hu; simp [parseTypedContent, hj] at hu
      | bool b => rw [handle_data_some_eq jl sender s hs] at hu; simp [parseTypedContent, hj] at hu
      | num n => rw [handle_data_some_eq jl sender s hs] at hu; simp [parseTypedContent, hj] at hu
      | str t => rw [handle_data_some_eq jl sender s hs] at hu; simp [parseTypedContent, hj] at hu
      | arr xs => rw [handle_data_some_eq jl sender s hs] at hu; simp [parseTypedContent, hj] at hu
  · rintro ⟨fs, v, hj, ht, hc, hv⟩
    refine ⟨jdUtterance (jsonGet fs "content"), ?_⟩
    have hcond : jdCondition (jsonGet fs "type") (jsonGet fs "content") = true :=
      (jdCondition_eq_true_iff _ _).mpr ⟨ht, v, hc, hv⟩
    rw [handle_data_some_eq jl sender s hs, parseTypedContent_obj jl s fs hj]
    simp [hcond]

/-- Witness for C9 at a concrete non-JSON message (silent drop branch). -/
theorem C9_forwarding_characterization_witness :
    handle_data rawLoads none (some "not json") = HandlerOutcome.noForward :=
  (C9_forwarding_characterization rawLoads none "not json" rfl).2.1 rfl

/-- C10: a data packet without sender metadata (`dp.participant` is
`None`) is not dropped by the self-origin guard: the handler behaves
exactly as for a standard (recruiter) participant, and a qualifying
job-description message is forwarded. -/
theorem C10_no_sender_metadata_not_dropped (jl : String → Option JsonValue)
    (d : Option String) :
    handle_data jl none d = handle_data jl (some ⟨ParticipantKind.standard⟩) d ∧
    (∀ s fs X, d = some s → jl s = some (JsonValue.obj fs) →
      jsonGet fs "type" = some (JsonValue.str "job_description") →
      jsonGet fs "content" = some (JsonValue.str X) → X ≠ "" →
      handle_data jl none d =
        HandlerOutcome.forwarded
          ("Here is the Job Description I need you to evaluate: " ++ X ++ ". Am I a fit?")) := by
  constructor
  · simp [handle_data, isAgentSender]
  · rintro s fs X rfl hj ht hc hX
    exact forwarded_of_jd_object jl none s X fs rfl hj ht hc hX

/-- Witness for C10 at a concrete qualifying message without sender
metadata. -/
theorem C10_no_sender_metadata_not_dropped_witness :
    handle_data jdLoads none (some "raw bytes") =
      HandlerOutcome.forwarded
        ("Here is the Job Description I need you to evaluate: " ++
          "Senior Python developer" ++ ". Am I a fit?") :=
  (C10_no_sender_metadata_not_dropped jdLoads (some "raw bytes")).2 "raw bytes" jdFields
    "Senior Python developer" rfl rfl rfl rfl (by decide)

/-! ### Claim theorems: Fit-Evaluation Tool -/

/-- A collection whose index holds one matching resume chunk, as in the
end-to-end scenario of the spec. -/
def resumeCollection : Collection := fun _ _ =>
  Except.ok ⟨[["I built a price predictor in Python"]]⟩

/-- C2 counterexample: with resume chunk
`I built a price predictor in Python` and job description
`Need a Python developer`, the block returned by the tool does not contain
the job description text at all, contradicting the claim that it appears
verbatim. -/
theorem C2_counterexample_jd_not_in_block :
    ¬ ∃ pre suf : String,
      evaluate_fit (some resumeCollection) "Need a Python developer" =
        pre ++ "Need a Python developer" ++ suf := by
  rintro ⟨pre, suf, h⟩
  have hd := congrArg String.data h
  rw [String.data_append, String.data_append, List.append_assoc] at hd
  have hc : listContains
      (evaluate_fit (some resumeCollection) "Need a Python developer").data
      ("Need a Python developer".data) = true := by
    rw [hd]
    exact listContains_of_decomp _ _ _
  have hf : listContains
      (evaluate_fit (some resumeCollection) "Need a Python developer").data
      ("Need a Python developer".data) = false := by decide
  rw [hf] at hc
  cases hc

/-- C2 (amended): when the query succeeds, the tool returns the block
`RETRIEVED RESUME SECTIONS:` + retrieved context + the strict-comparison
instruction; it contains the retrieved resume context verbatim with the
instruction appended, but the job description text is not part of the
composition. -/
theorem C2_block_contains_context_and_instruction (c : Collection) (jd : String)
    (r : QueryResults) (hq : c jd 5 = Except.ok r) :
    evaluate_fit (some c) jd =
      "RETRIEVED RESUME SECTIONS:\n" ++ retrieved_context r ++
        "\n\nINSTRUCTION: Compare the JD strictly against these sections." ∧
    ∃ pre suf, evaluate_fit (some c) jd = pre ++ retrieved_context r ++ suf := by
  have h1 : evaluate_fit (some c) jd =
      "RETRIEVED RESUME SECTIONS:\n" ++ retrieved_context r ++
        "\n\nINSTRUCTION: Compare the JD strictly against these sections." := by
    simp [evaluate_fit, collectionQuery, hq]
  exact ⟨h1, "RETRIEVED RESUME SECTIONS:\n",
    "\n\nINSTRUCTION: Compare the JD strictly against these sections.", h1⟩

/-- Witness for the amended C2 at the end-to-end scenario inputs. -/
theorem C2_block_contains_context_and_instruction_witness :
    evaluate_fit (some resumeCollection) "Need a Python developer" =
      "RETRIEVED RESUME SECTIONS:\n" ++
        retrieved_context ⟨[["I built a price predictor in Python"]]⟩ ++
        "\n\nINSTRUCTION: Compare the JD strictly against these sections." :=
  (C2_block_contains_context_and_instruction resumeCollection "Need a Python developer"
    ⟨[["I built a price predictor in Python"]]⟩ rfl).1

/-- A collection honouring the ChromaDB `n_results` contract, used as the
C3 witness input. -/
def cappedCollection : Collection := fun _ n =>
  Except.ok ⟨[List.take n ["resume chunk"]]⟩

/-- `cappedCollection` never returns more fragments than requested. -/
theorem cappedCollection_contract : ∀ q n r, cappedCollection q n = Except.ok r →
    ∀ d ∈ r.documents, d.length ≤ n := by
  intro q n r h d hd
  have hr : r = ⟨[List.take n ["resume chunk"]]⟩ := by
    simpa [cappedCollection] using h.symm
  subst hr
  simp at hd
  subst hd
  exact List.length_take_le n _

/-- C3: the tool queries the collection with `n_results = 5`; on success,
if the index returned no matching documents the retrieved context is the
sentinel `No relevant experience found in resume.`, otherwise it is the
returned fragments joined with the separator — at most 5 of them whenever
the index honours the `n_results` bound — and the tool embeds that context
in its block. -/
theorem C3_top5_join_or_sentinel (c : Collection) (jd : String)
    (r : QueryResults) (hq : c jd 5 = Except.ok r)
    (hcontract : ∀ q n r2, c q n = Except.ok r2 → ∀ d ∈ r2.documents, d.length ≤ n) :
    ((r.documents = [] ∨ (∃ rest, r.documents = [] :: rest)) →
      retrieved_context r = "No relevant experience found in resume.") ∧
    (∀ d0 rest, r.documents = d0 :: rest → d0 ≠ [] →
      retrieved_context r = String.intercalate "\n---\n" d0 ∧ d0.length ≤ 5) ∧
    evaluate_fit (some c) jd =
      "RETRIEVED RESUME SECTIONS:\n" ++ retrieved_context r ++
        "\n\nINSTRUCTION: Compare the JD strictly against these sections." := by
  refine ⟨?_, ?_, by simp [evaluate_fit, collectionQuery, hq]⟩
  · rintro (h | ⟨rest, h⟩) <;> simp [retrieved_context, h]
  · intro d0 rest h hne
    refine ⟨by simp [retrieved_context, h, hne], ?_⟩
    refine hcontract jd 5 r hq d0 ?_
    rw [h]
    exact List.mem_cons_self _ _

/-- Witness for C3 at a concrete one-chunk index. -/
theorem C3_top5_join_or_sentinel_witness :
    retrieved_context ⟨[["resume chunk"]]⟩ = String.intercalate "\n---\n" ["resume chunk"] ∧
    (["resume chunk"] : List String).length ≤ 5 :=
  (C3_top5_join_or_sentinel cappedCollection "Need a Python developer"
    ⟨[["resume chunk"]]⟩ rfl cappedCollection_contract).2.1 ["resume chunk"] [] rfl
    (by decide)

/-- A collection whose query always raises, used as the C4 witness input. -/
def failCollection : Collection := fun _ _ => Except.error ()

/-- C4: the tool is total — it always returns a string — and when the
index query raises, the exception is caught at the tool boundary and the
tool returns exactly `Error: Could not retrieve resume data.`. -/
theorem C4_query_error_contained (col : Option Collection) (jd : String) :
    (∃ s, evaluate_fit col jd = s) ∧
    (collectionQuery col jd 5 = Except.error () →
      evaluate_fit col jd = "Error: Could not retrieve resume data.") := by
  refine ⟨⟨_, rfl⟩, fun h => ?_⟩
  simp [evaluate_fit, h]

/-- Witness for C4 at a concrete raising collection. -/
theorem C4_query_error_contained_witness :
    evaluate_fit (some failCollection) "Need a Python developer" =
      "Error: Could not retrieve resume data." :=
  (C4_query_error_contained (some failCollection) "Need a Python developer").2 rfl

/-- C7: when connecting to the context store failed at startup, the
module-level `except` only logs, so the process continues with
`collection` unbound (modelled by `none`); every later call of the tool
then hits an exception at the query reference, caught by the tool-level
handler, and returns the error string instead of raising. -/
theorem C7_startup_failure_graceful (jd : String) :
    evaluate_fit none jd = "Error: Could not retrieve resume data." := rfl

/-! ### Claim theorem: agent entry -/

/-- C8: on the session transition into the started state, the agent speaks
exactly one fixed scripted greeting, which asks the recruiter to submit a
job description (it mentions pasting the Job Description). -/
theorem C8_greeting_on_started :
    on_enter =
      ["I am connected. Please paste the Job Description and click submit so I can evaluate my fit."] ∧
    ∃ pre suf,
      "I am connected. Please paste the Job Description and click submit so I can evaluate my fit." =
        pre ++ "Job Description" ++ suf :=
  ⟨rfl, "I am connected. Please paste the ",
    " and click submit so I can evaluate my fit.", rfl⟩

end ResumeAgentSpec
